import Mathlib

/- Verification of the gpu_display crate (src/gpu_display/src/lib.rs): a shallow
embedding of the surface/buffer lifecycle and handle-management layer, plus
theorems about the double-buffering protocol, shared-memory sizing, id
allocation, error handling and teardown.

Machine integers: the crate uses u32 for ids and the width/height arithmetic
and usize (64-bit) for sizes.  u32 arithmetic is embedded as Nat with explicit
reduction modulo 2^32 at every operation that can overflow (release-build
wrapping semantics); usize arithmetic never overflows in these functions
(the operands are below 2^33) and is embedded as plain Nat.

Native compositor-client calls (the dwl module) and the sys_util shared-memory
primitives are external collaborators; their outcomes are supplied by explicit
environment records, and the few facts needed about them are modelled from the
spec (marked in their doc comments). -/

/-- Source constant BUFFER_COUNT (lib.rs line 22): two buffers per surface. -/
def BUFFER_COUNT : Nat := 2

/-- Source constant BYTES_PER_PIXEL (lib.rs line 23). -/
def BYTES_PER_PIXEL : Nat := 4

/-- Modulus of the 32-bit unsigned integers used for ids and pixel geometry. -/
def U32 : Nat := 4294967296

/-- Modelled from the spec: the platform page size used by the collaborator's
page-size-rounding operation (sys_util, outside this repository). -/
def pageSize : Nat := 4096

/-- Modelled from the spec: sys_util's round_up_to_page_size, the collaborator
"page-size-rounding" operation: rounds a byte count up to the next multiple of
the platform page size. -/
def round_up_to_page_size (size : Nat) : Nat :=
  (size + pageSize - 1) / pageSize * pageSize

/-- The error taxonomy of the crate (lib.rs lines 26-44).  The SysError payloads
carried by CreateShm and SetSize are embedded as raw errno values. -/
inductive GpuDisplayError where
  | Allocate
  | Connect
  | CreateShm (err : Nat)
  | SetSize (err : Nat)
  | CreateSurface
  | FailedImport
  | InvalidSurfaceId
  | InvalidPath
deriving DecidableEq

/-- One surface's state (lib.rs lines 102-107): native surface handle, the
per-buffer byte size (fb_size), the current buffer index (a Cell in the
source), and the mapped shared-memory region, embedded by its byte size. -/
structure GpuDisplaySurface where
  surface : Nat
  buffer_size : Nat
  buffer_index : Nat
  buffer_mem_size : Nat
deriving DecidableEq

/-- The connection state (lib.rs lines 119-125): native context handle, the
dmabuf and surface handle tables (HashMap u32 -> handle, embedded as
association lists with unique keys), and the two id counters. -/
structure GpuDisplay where
  ctx : Nat
  dmabufs : List (Nat × Nat)
  dmabuf_next_id : Nat
  surfaces : List (Nat × GpuDisplaySurface)
  surface_next_id : Nat
deriving DecidableEq

/-- Association-list lookup, the embedding of HashMap::get. -/
def lookupKV {α : Type} (k : Nat) : List (Nat × α) → Option α
  | [] => none
  | kv :: rest => if kv.1 = k then some kv.2 else lookupKV k rest

/-- Removal of a key, the embedding of HashMap::remove (the value's Drop runs;
ownership is not returned to the caller in the source either). -/
def removeKey {α : Type} (k : Nat) : List (Nat × α) → List (Nat × α)
  | [] => []
  | kv :: rest => if kv.1 = k then removeKey k rest else kv :: removeKey k rest

/-- Insertion with overwrite, the embedding of HashMap::insert. -/
def insertKV {α : Type} (k : Nat) (v : α) (m : List (Nat × α)) : List (Nat × α) :=
  (k, v) :: removeKey k m

/-- Outcomes of the native compositor-client calls made by one operation.
The calls themselves are external (mod dwl); only their results matter. -/
structure NativeEnv where
  shm_ok : Bool
  shm_err : Nat
  set_size_ok : Bool
  set_size_err : Nat
  map_ok : Bool
  surface_handle : Option Nat
  dmabuf_handle : Option Nat
  buffer_in_use : Nat → Bool
  close_req : Bool

/-- Outcomes of the native calls made by GpuDisplay::new: the dwl_context_new
result (none embeds a null pointer) and the dwl_context_setup result. -/
structure NewEnv where
  ctx_new : Option Nat
  setup_ok : Bool

/-- Whether a byte is a UTF-8 continuation byte (0x80..0xBF). -/
def contByte (b : Nat) : Bool := 128 ≤ b && b < 192

/-- UTF-8 validity of a byte string, the check performed by OsStr::to_str in
GpuDisplay::new (lib.rs line 138): RFC 3629 encodings only (no overlong forms,
no surrogates, maximum U+10FFFF). -/
def utf8Valid : List Nat → Bool
  | [] => true
  | b :: rest =>
    if b < 128 then utf8Valid rest
    else if b < 194 then false
    else if b < 224 then
      match rest with
      | b1 :: rest1 => contByte b1 && utf8Valid rest1
      | [] => false
    else if b < 240 then
      match rest with
      | b1 :: b2 :: rest2 =>
        (if b = 224 then 160 ≤ b1 && b1 < 192
         else if b = 237 then 128 ≤ b1 && b1 < 160
         else contByte b1) && contByte b2 && utf8Valid rest2
      | _ => false
    else if b < 245 then
      match rest with
      | b1 :: b2 :: b3 :: rest3 =>
        (if b = 240 then 144 ≤ b1 && b1 < 192
         else if b = 244 then 128 ≤ b1 && b1 < 144
         else contByte b1) && contByte b2 && contByte b3 && utf8Valid rest3
      | _ => false
    else false

/-- The path conversion in GpuDisplay::new (lib.rs lines 138-144): the OS path
bytes are first checked to be valid UTF-8 (OsStr::to_str), then CString::new
rejects interior null bytes and appends the terminating null. -/
def pathToCString (path : List Nat) : Option (List Nat) :=
  if utf8Valid path then
    if path.contains 0 then none else some (path ++ [0])
  else none

/-- GpuDisplay::new (lib.rs lines 129-157): allocates a native context (null
result gives Allocate), converts the path (failure gives InvalidPath), performs
the setup handshake (failure gives Connect), and on success returns the fresh
connection with empty tables and both counters at zero. -/
def GpuDisplay.new (env : NewEnv) (wayland_path : List Nat) :
    Except GpuDisplayError GpuDisplay :=
  match env.ctx_new with
  | none => Except.error GpuDisplayError.Allocate
  | some ctx =>
    match pathToCString wayland_path with
    | none => Except.error GpuDisplayError.InvalidPath
    | some _ =>
      if env.setup_ok then
        Except.ok { ctx := ctx, dmabufs := [], dmabuf_next_id := 0,
                    surfaces := [], surface_next_id := 0 }
      else Except.error GpuDisplayError.Connect

/-- GpuDisplay::get_surface (lib.rs lines 163-165). -/
def GpuDisplay.get_surface (d : GpuDisplay) (surface_id : Nat) :
    Option GpuDisplaySurface :=
  lookupKV surface_id d.surfaces

/-- GpuDisplay::import_dmabuf (lib.rs lines 168-201): the descriptor parameters
are passed through to the native import call, whose result is supplied by the
environment (none embeds a null dwl_dmabuf).  On success the handle is stored
under the next import id and the counter is post-incremented (u32 wrap). -/
def GpuDisplay.import_dmabuf (env : NativeEnv) (d : GpuDisplay)
    (fd offset stride modifiers width height fourcc : Nat) :
    Except GpuDisplayError Nat × GpuDisplay :=
  match env.dmabuf_handle with
  | none => (Except.error GpuDisplayError.FailedImport, d)
  | some handle =>
    let next_id := d.dmabuf_next_id
    (Except.ok next_id,
     { d with dmabufs := insertKV next_id handle d.dmabufs,
              dmabuf_next_id := (d.dmabuf_next_id + 1) % U32 })

/-- GpuDisplay::release_import (lib.rs lines 204-206). -/
def GpuDisplay.release_import (d : GpuDisplay) (import_id : Nat) : GpuDisplay :=
  { d with dmabufs := removeKey import_id d.dmabufs }

/-- GpuDisplay::dispatch_events (lib.rs lines 210-215): dwl_context_dispatch
drains compositor events; no connection-level state in the table layer
changes. -/
def GpuDisplay.dispatch_events (d : GpuDisplay) : GpuDisplay := d

/-- The fb_size computation of create_surface (lib.rs lines 232-233):
row_size = width * BYTES_PER_PIXEL and fb_size = row_size * height, both u32
multiplications (wrapping in release builds). -/
def fbSize (width height : Nat) : Nat :=
  width * BYTES_PER_PIXEL % U32 * height % U32

/-- Result of one create_surface call: the crash constructor embeds the panic
of the unwrap on MemoryMapping::from_fd (lib.rs line 242). -/
inductive CreateResult where
  | crash
  | error (e : GpuDisplayError)
  | ok (id : Nat)
deriving DecidableEq

/-- Full outcome of one create_surface call: result, resulting connection
state, and whether a shared-memory region was created during the call
(observable side effect for the leak claims). -/
structure CreateOutcome where
  result : CreateResult
  state : GpuDisplay
  shm_created : Bool
deriving DecidableEq

/-- The tail of GpuDisplay::create_surface after parent resolution (lib.rs
lines 232-275): computes fb_size, rounds the double-buffer total up to the
page size, creates and sizes the shared memory (CreateShm / SetSize errors),
maps it (panic on failure, the unwrap on line 242), asks the native layer for
a surface (null gives CreateSurface), then stores the new surface state under
the next surface id and post-increments the counter (u32 wrap). -/
def GpuDisplay.create_surface_resolved (env : NativeEnv) (d : GpuDisplay)
    (parent_ptr : Nat) (width height : Nat) : CreateOutcome :=
  if env.shm_ok = false then
    ⟨CreateResult.error (GpuDisplayError.CreateShm env.shm_err), d, false⟩
  else if env.set_size_ok = false then
    ⟨CreateResult.error (GpuDisplayError.SetSize env.set_size_err), d, true⟩
  else if env.map_ok = false then
    ⟨CreateResult.crash, d, true⟩
  else
    match env.surface_handle with
    | none => ⟨CreateResult.error GpuDisplayError.CreateSurface, d, true⟩
    | some handle =>
      ⟨CreateResult.ok d.surface_next_id,
       { d with
           surfaces := insertKV d.surface_next_id
             { surface := handle, buffer_size := fbSize width height,
               buffer_index := 0,
               buffer_mem_size :=
                 round_up_to_page_size (fbSize width height * BUFFER_COUNT) }
             d.surfaces,
           surface_next_id := (d.surface_next_id + 1) % U32 },
       true⟩

/-- GpuDisplay::create_surface (lib.rs lines 219-276): resolves the optional
parent id through the surface table (unknown id gives InvalidSurfaceId before
any allocation), then proceeds as create_surface_resolved; a missing parent is
the null pointer, embedded as 0. -/
def GpuDisplay.create_surface (env : NativeEnv) (d : GpuDisplay)
    (parent_surface_id : Option Nat) (width height : Nat) : CreateOutcome :=
  match parent_surface_id with
  | some id =>
    match d.get_surface id with
    | some p => GpuDisplay.create_surface_resolved env d p.surface width height
    | none => ⟨CreateResult.error GpuDisplayError.InvalidSurfaceId, d, false⟩
  | none => GpuDisplay.create_surface_resolved env d 0 width height

/-- GpuDisplay::release_surface (lib.rs lines 279-281). -/
def GpuDisplay.release_surface (d : GpuDisplay) (surface_id : Nat) : GpuDisplay :=
  { d with surfaces := removeKey surface_id d.surfaces }

/-- Modelled from the spec: the collaborator "map-to-slice" operation
(MemoryMapping::get_slice from sys_util/data_model, outside this repository):
yields a view descriptor (offset, length) into the mapped region when it lies
entirely within the mapped size, and nothing otherwise. -/
def getSlice (mem_size offset count : Nat) : Option (Nat × Nat) :=
  if offset + count ≤ mem_size then some (offset, count) else none

/-- GpuDisplay::framebuffer_memory (lib.rs lines 284-294): for a known surface,
a view of the mapped region at offset candidate * buffer_size with length
buffer_size, where candidate = (buffer_index + 1) % BUFFER_COUNT; none for an
unknown id. -/
def GpuDisplay.framebuffer_memory (d : GpuDisplay) (surface_id : Nat) :
    Option (Nat × Nat) :=
  match d.get_surface surface_id with
  | none => none
  | some surface =>
    let buffer_index := (surface.buffer_index + 1) % BUFFER_COUNT
    getSlice surface.buffer_mem_size (buffer_index * surface.buffer_size)
      surface.buffer_size

/-- GpuDisplay::commit (lib.rs lines 297-307): known id commits the native
surface (the handle passed to dwl_surface_commit is returned as the second
component); unknown id is a debug-assert no-op.  The state is unchanged in
both branches. -/
def GpuDisplay.commit (d : GpuDisplay) (surface_id : Nat) :
    GpuDisplay × Option Nat :=
  match d.get_surface surface_id with
  | some surface => (d, some surface.surface)
  | none => (d, none)

/-- GpuDisplay::next_buffer_in_use (lib.rs lines 314-326): queries the native
in-use flag at the candidate index (buffer_index + 1) % BUFFER_COUNT; false
for an unknown id. -/
def GpuDisplay.next_buffer_in_use (env : NativeEnv) (d : GpuDisplay)
    (surface_id : Nat) : Bool :=
  match d.get_surface surface_id with
  | some surface => env.buffer_in_use ((surface.buffer_index + 1) % BUFFER_COUNT)
  | none => false

/-- GpuDisplay::flip (lib.rs lines 330-343): advances the surface's
buffer_index to (buffer_index + 1) % BUFFER_COUNT and presents the buffer at
the new index (handle and index returned as the second component); unknown id
is a debug-assert no-op. -/
def GpuDisplay.flip (d : GpuDisplay) (surface_id : Nat) :
    GpuDisplay × Option (Nat × Nat) :=
  match d.get_surface surface_id with
  | some surface =>
    let new_index := (surface.buffer_index + 1) % BUFFER_COUNT
    let updated := { surface with buffer_index := new_index }
    ({ d with surfaces := insertKV surface_id updated d.surfaces },
     some (surface.surface, new_index))
  | none => (d, none)

/-- GpuDisplay::flip_to (lib.rs lines 347-358): presents an imported dmabuf on
the surface (the pair of native handles passed to dwl_surface_flip_to is
returned as the second component); an unknown surface or import id is a
debug-assert no-op.  buffer_index is never touched. -/
def GpuDisplay.flip_to (d : GpuDisplay) (surface_id import_id : Nat) :
    GpuDisplay × Option (Nat × Nat) :=
  match d.get_surface surface_id with
  | some surface =>
    match lookupKV import_id d.dmabufs with
    | some dmabuf => (d, some (surface.surface, dmabuf))
    | none => (d, none)
  | none => (d, none)

/-- GpuDisplay::close_requested (lib.rs lines 362-369): native query for a
known id, false for an unknown id (no debug assertion in this one). -/
def GpuDisplay.close_requested (env : NativeEnv) (d : GpuDisplay)
    (surface_id : Nat) : Bool :=
  match d.get_surface surface_id with
  | some _ => env.close_req
  | none => false

/-- GpuDisplay::set_position (lib.rs lines 374-384): native call for a known
id (handle and coordinates returned as the second component); unknown id is a
debug-assert no-op.  The state is unchanged in both branches. -/
def GpuDisplay.set_position (d : GpuDisplay) (surface_id x y : Nat) :
    GpuDisplay × Option (Nat × Nat × Nat) :=
  match d.get_surface surface_id with
  | some surface => (d, some (surface.surface, x, y))
  | none => (d, none)

/-- One public operation on a connection, with the native outcomes for the
fallible ones: the operation language over which the sequence claims are
stated. -/
inductive Cmd where
  | create_surface (env : NativeEnv) (parent_surface_id : Option Nat)
      (width height : Nat)
  | release_surface (surface_id : Nat)
  | import_dmabuf (env : NativeEnv)
      (fd offset stride modifiers width height fourcc : Nat)
  | release_import (import_id : Nat)
  | commit (surface_id : Nat)
  | flip (surface_id : Nat)
  | flip_to (surface_id import_id : Nat)
  | set_position (surface_id x y : Nat)
  | next_buffer_in_use (env : NativeEnv) (surface_id : Nat)
  | close_requested (env : NativeEnv) (surface_id : Nat)
  | framebuffer_memory (surface_id : Nat)
  | dispatch_events

/-- Result of one step: the process crashed (create_surface's unwrap), or the
next state, tagged with a fresh surface or import id when one was returned. -/
inductive StepOut where
  | crashed
  | quiet (d : GpuDisplay)
  | newSurface (id : Nat) (d : GpuDisplay)
  | newImport (id : Nat) (d : GpuDisplay)

/-- The state reached by a step, if the step did not crash. -/
def StepOut.outState : StepOut → Option GpuDisplay
  | StepOut.crashed => none
  | StepOut.quiet d => some d
  | StepOut.newSurface _ d => some d
  | StepOut.newImport _ d => some d

/-- Executes one operation against the connection state. -/
def stepCmd : Cmd → GpuDisplay → StepOut
  | Cmd.create_surface env parent w h, d =>
    match (GpuDisplay.create_surface env d parent w h).result with
    | CreateResult.crash => StepOut.crashed
    | CreateResult.error _ =>
      StepOut.quiet (GpuDisplay.create_surface env d parent w h).state
    | CreateResult.ok id =>
      StepOut.newSurface id (GpuDisplay.create_surface env d parent w h).state
  | Cmd.release_surface id, d => StepOut.quiet (d.release_surface id)
  | Cmd.import_dmabuf env fd off st mo w h fo, d =>
    match GpuDisplay.import_dmabuf env d fd off st mo w h fo with
    | (Except.error _, d2) => StepOut.quiet d2
    | (Except.ok id, d2) => StepOut.newImport id d2
  | Cmd.release_import id, d => StepOut.quiet (d.release_import id)
  | Cmd.commit id, d => StepOut.quiet (d.commit id).1
  | Cmd.flip id, d => StepOut.quiet (d.flip id).1
  | Cmd.flip_to sid iid, d => StepOut.quiet (d.flip_to sid iid).1
  | Cmd.set_position id x y, d => StepOut.quiet (d.set_position id x y).1
  | Cmd.next_buffer_in_use _ _, d => StepOut.quiet d
  | Cmd.close_requested _ _, d => StepOut.quiet d
  | Cmd.framebuffer_memory _, d => StepOut.quiet d
  | Cmd.dispatch_events, d => StepOut.quiet d.dispatch_events

/-- Executes a sequence of operations from a state, collecting the surface ids
and import ids returned by the successful creations, in order; none if some
step crashed the process. -/
def runTrace : List Cmd → GpuDisplay → Option (GpuDisplay × List Nat × List Nat)
  | [], d => some (d, [], [])
  | c :: rest, d =>
    match stepCmd c d with
    | StepOut.crashed => none
    | StepOut.quiet d2 => runTrace rest d2
    | StepOut.newSurface id d2 =>
      match runTrace rest d2 with
      | none => none
      | some (df, sids, iids) => some (df, id :: sids, iids)
    | StepOut.newImport id d2 =>
      match runTrace rest d2 with
      | none => none
      | some (df, sids, iids) => some (df, sids, id :: iids)

/-- Whether an optional parent id resolves in the surface table: the guard of
the first step of create_surface. -/
def parentResolves (d : GpuDisplay) (parent : Option Nat) : Bool :=
  match parent with
  | none => true
  | some id => (d.get_surface id).isSome

/-- A surface's structural well-formedness: the buffer index stays inside
[0, BUFFER_COUNT) and the mapped region holds BUFFER_COUNT full buffers. -/
def SurfWF (s : GpuDisplaySurface) : Prop :=
  s.buffer_index < BUFFER_COUNT ∧ s.buffer_size * BUFFER_COUNT ≤ s.buffer_mem_size

/-- Every registered surface of the connection is well-formed. -/
def DisplayWF (d : GpuDisplay) : Prop :=
  ∀ id s, d.get_surface id = some s → SurfWF s

/- Teardown model (claim C8).  The native dwl_context_destroy lives in the
external dwl module; the Rust-side Drop impls are lib.rs lines 63-74 and
387-392. -/

/-- The DwlContext guard's state during teardown: the raw context pointer
(none embeds null) and how many native destructions have been performed. -/
structure ContextSlot where
  ptr : Option Nat
  destroyed : Nat
deriving DecidableEq

/-- Modelled from the spec: the native destroy call dwl_context_destroy
(external dwl module) takes the pointer by reference, destroys the context it
points to, and consumes the handle by nulling the pointer, so the guard is
left tolerant of an already-consumed handle. -/
def dwl_context_destroy (c : ContextSlot) : ContextSlot :=
  match c.ptr with
  | some _ => { ptr := none, destroyed := c.destroyed + 1 }
  | none => c

/-- Drop for DwlContext (lib.rs lines 64-74): calls the native destroy only
when the pointer is non-null. -/
def dwlContextDrop (c : ContextSlot) : ContextSlot :=
  if c.ptr.isSome then dwl_context_destroy c else c

/-- Drop for GpuDisplay (lib.rs lines 387-392): calls the native destroy on
its context field unconditionally. -/
def gpuDisplayDrop (c : ContextSlot) : ContextSlot :=
  dwl_context_destroy c

/-- Full teardown of a GpuDisplay: Rust runs Drop for GpuDisplay first, then
drops the ctx field, which runs Drop for DwlContext. -/
def gpuDisplayTeardown (c : ContextSlot) : ContextSlot :=
  dwlContextDrop (gpuDisplayDrop c)

/- Concrete fixtures used by the witnesses. -/

/-- A NewEnv in which the native context allocation and handshake succeed. -/
def goodNewEnv : NewEnv := { ctx_new := some 1, setup_ok := true }

/-- The connection returned by a successful GpuDisplay::new with context
handle 1: empty tables, both counters at zero. -/
def freshDisplay : GpuDisplay :=
  { ctx := 1, dmabufs := [], dmabuf_next_id := 0,
    surfaces := [], surface_next_id := 0 }

/-- A NativeEnv in which every native and system call succeeds. -/
def goodEnv : NativeEnv :=
  { shm_ok := true, shm_err := 0, set_size_ok := true, set_size_err := 0,
    map_ok := true, surface_handle := some 2, dmabuf_handle := some 3,
    buffer_in_use := fun _ => false, close_req := false }

/-- A NativeEnv in which creating the shared memory fails with errno 12. -/
def shmFailEnv : NativeEnv := { goodEnv with shm_ok := false, shm_err := 12 }

/-- A NativeEnv in which mapping the shared memory fails. -/
def mapFailEnv : NativeEnv := { goodEnv with map_ok := false }

/-- The surface state created by create_surface 64x64 under goodEnv:
fb_size = 64 * 4 * 64 = 16384, region size = round up of 32768 = 32768. -/
def surf64 : GpuDisplaySurface :=
  { surface := 2, buffer_size := 16384, buffer_index := 0,
    buffer_mem_size := 32768 }

/-- freshDisplay after one successful 64x64 create_surface. -/
def display1 : GpuDisplay :=
  { ctx := 1, dmabufs := [], dmabuf_next_id := 0,
    surfaces := [(0, surf64)], surface_next_id := 1 }

/-- freshDisplay after two successful 64x64 create_surface calls. -/
def display2 : GpuDisplay :=
  { ctx := 1, dmabufs := [], dmabuf_next_id := 0,
    surfaces := [(1, surf64), (0, surf64)], surface_next_id := 2 }

/-- A successful 1x1 create_surface operation. -/
def wrapCreateCmd : Cmd := Cmd.create_surface goodEnv none 1 1

/- Association-list (HashMap) lemmas. -/

theorem lookupKV_removeKey_self {α : Type} (k : Nat) (m : List (Nat × α)) :
    lookupKV k (removeKey k m) = none := by
  induction m with
  | nil => rfl
  | cons kv rest ih =>
    by_cases h : kv.1 = k
    · simp [removeKey, h, ih]
    · simp [removeKey, lookupKV, h, ih]

theorem lookupKV_removeKey_ne {α : Type} (k q : Nat) (m : List (Nat × α))
    (h : q ≠ k) : lookupKV q (removeKey k m) = lookupKV q m := by
  induction m with
  | nil => rfl
  | cons kv rest ih =>
    by_cases hk : kv.1 = k
    · have hkq : ¬ (k = q) := fun hh => h hh.symm
      simp [removeKey, lookupKV, hk, hkq, ih]
    · simp [removeKey, lookupKV, hk, ih]

theorem removeKey_of_lookup_none {α : Type} (k : Nat) (m : List (Nat × α))
    (h : lookupKV k m = none) : removeKey k m = m := by
  induction m with
  | nil => rfl
  | cons kv rest ih =>
    by_cases hk : kv.1 = k
    · simp [lookupKV, hk] at h
    · simp only [lookupKV, if_neg hk] at h
      simp [removeKey, hk, ih h]

theorem lookupKV_insertKV_self {α : Type} (k : Nat) (v : α) (m : List (Nat × α)) :
    lookupKV k (insertKV k v m) = some v := by
  simp [insertKV, lookupKV]

theorem lookupKV_insertKV_ne {α : Type} (k q : Nat) (v : α) (m : List (Nat × α))
    (h : q ≠ k) : lookupKV q (insertKV k v m) = lookupKV q m := by
  have hk : k ≠ q := fun hh => h hh.symm
  simp [insertKV, lookupKV, hk, lookupKV_removeKey_ne k q m h]

theorem lookupKV_insertKV_cases {α : Type} (k q : Nat) (v w : α)
    (m : List (Nat × α)) (h : lookupKV q (insertKV k v m) = some w) :
    (q = k ∧ w = v) ∨ (q ≠ k ∧ lookupKV q m = some w) := by
  by_cases hq : q = k
  · subst hq
    rw [lookupKV_insertKV_self] at h
    exact Or.inl ⟨rfl, (Option.some.inj h).symm⟩
  · rw [lookupKV_insertKV_ne k q v m hq] at h
    exact Or.inr ⟨hq, h⟩

theorem lookupKV_removeKey_some {α : Type} (k q : Nat) (w : α)
    (m : List (Nat × α)) (h : lookupKV q (removeKey k m) = some w) :
    lookupKV q m = some w := by
  by_cases hq : q = k
  · subst hq; rw [lookupKV_removeKey_self] at h; cases h
  · rw [lookupKV_removeKey_ne k q m hq] at h; exact h

/- Page rounding lemmas. -/

theorem le_round_up_to_page_size (s : Nat) : s ≤ round_up_to_page_size s := by
  unfold round_up_to_page_size pageSize
  omega

theorem pageSize_dvd_round_up (s : Nat) : pageSize ∣ round_up_to_page_size s := by
  unfold round_up_to_page_size
  exact dvd_mul_left pageSize _

/- Connection construction lemmas. -/

theorem new_ok_state (env : NewEnv) (path : List Nat) (d0 : GpuDisplay)
    (h : GpuDisplay.new env path = Except.ok d0) :
    d0.surfaces = [] ∧ d0.surface_next_id = 0 ∧ d0.dmabufs = [] ∧
      d0.dmabuf_next_id = 0 := by
  unfold GpuDisplay.new at h
  cases hc : env.ctx_new with
  | none => simp [hc] at h
  | some c =>
    simp only [hc] at h
    cases hp : pathToCString path with
    | none => simp [hp] at h
    | some cs =>
      simp only [hp] at h
      cases hs : env.setup_ok with
      | false => simp [hs] at h
      | true =>
        simp only [hs, if_true] at h
        injection h with h2
        subst h2
        exact ⟨rfl, rfl, rfl, rfl⟩

theorem displayWF_of_new (env : NewEnv) (path : List Nat) (d0 : GpuDisplay)
    (h : GpuDisplay.new env path = Except.ok d0) : DisplayWF d0 := by
  obtain ⟨hs, _, _, _⟩ := new_ok_state env path d0 h
  intro id s hsome
  unfold GpuDisplay.get_surface at hsome
  rw [hs] at hsome
  simp [lookupKV] at hsome

/- State-preservation of the query-only operations. -/

theorem commit_fst (d : GpuDisplay) (id : Nat) : (d.commit id).1 = d := by
  unfold GpuDisplay.commit
  cases d.get_surface id <;> rfl

theorem flip_to_fst (d : GpuDisplay) (sid iid : Nat) :
    (d.flip_to sid iid).1 = d := by
  unfold GpuDisplay.flip_to
  cases d.get_surface sid with
  | none => rfl
  | some s => cases lookupKV iid d.dmabufs <;> rfl

theorem set_position_fst (d : GpuDisplay) (id x y : Nat) :
    (d.set_position id x y).1 = d := by
  unfold GpuDisplay.set_position
  cases d.get_surface id <;> rfl

/- Characterization of create_surface outcomes. -/

theorem create_surface_resolved_cases (env : NativeEnv) (d : GpuDisplay)
    (pp w h : Nat) :
    (((GpuDisplay.create_surface_resolved env d pp w h).result = CreateResult.crash
        ∨ ∃ e, (GpuDisplay.create_surface_resolved env d pp w h).result =
            CreateResult.error e)
      ∧ (GpuDisplay.create_surface_resolved env d pp w h).state = d)
    ∨ (∃ handle, env.surface_handle = some handle
        ∧ GpuDisplay.create_surface_resolved env d pp w h =
          ⟨CreateResult.ok d.surface_next_id,
           { d with
               surfaces := insertKV d.surface_next_id
                 { surface := handle, buffer_size := fbSize w h,
                   buffer_index := 0,
                   buffer_mem_size :=
                     round_up_to_page_size (fbSize w h * BUFFER_COUNT) }
                 d.surfaces,
               surface_next_id := (d.surface_next_id + 1) % U32 },
           true⟩) := by
  unfold GpuDisplay.create_surface_resolved
  by_cases h1 : env.shm_ok = false
  · rw [if_pos h1]; exact Or.inl ⟨Or.inr ⟨_, rfl⟩, rfl⟩
  · rw [if_neg h1]
    by_cases h2 : env.set_size_ok = false
    · rw [if_pos h2]; exact Or.inl ⟨Or.inr ⟨_, rfl⟩, rfl⟩
    · rw [if_neg h2]
      by_cases h3 : env.map_ok = false
      · rw [if_pos h3]; exact Or.inl ⟨Or.inl rfl, rfl⟩
      · rw [if_neg h3]
        cases hh : env.surface_handle with
        | none => exact Or.inl ⟨Or.inr ⟨_, rfl⟩, rfl⟩
        | some handle => exact Or.inr ⟨handle, rfl, rfl⟩

theorem create_surface_cases (env : NativeEnv) (d : GpuDisplay)
    (parent : Option Nat) (w h : Nat) :
    (((GpuDisplay.create_surface env d parent w h).result = CreateResult.crash
        ∨ ∃ e, (GpuDisplay.create_surface env d parent w h).result =
            CreateResult.error e)
      ∧ (GpuDisplay.create_surface env d parent w h).state = d)
    ∨ (∃ handle, env.surface_handle = some handle
        ∧ GpuDisplay.create_surface env d parent w h =
          ⟨CreateResult.ok d.surface_next_id,
           { d with
               surfaces := insertKV d.surface_next_id
                 { surface := handle, buffer_size := fbSize w h,
                   buffer_index := 0,
                   buffer_mem_size :=
                     round_up_to_page_size (fbSize w h * BUFFER_COUNT) }
                 d.surfaces,
               surface_next_id := (d.surface_next_id + 1) % U32 },
           true⟩) := by
  cases parent with
  | none =>
    simp only [GpuDisplay.create_surface]
    exact create_surface_resolved_cases env d 0 w h
  | some id =>
    simp only [GpuDisplay.create_surface]
    cases hp : d.get_surface id with
    | none => exact Or.inl ⟨Or.inr ⟨_, rfl⟩, rfl⟩
    | some p => exact create_surface_resolved_cases env d p.surface w h

theorem create_surface_error_state (env : NativeEnv) (d : GpuDisplay)
    (parent : Option Nat) (w h : Nat) (e : GpuDisplayError)
    (he : (GpuDisplay.create_surface env d parent w h).result =
      CreateResult.error e) :
    (GpuDisplay.create_surface env d parent w h).state = d := by
  rcases create_surface_cases env d parent w h with ⟨_, hstate⟩ | ⟨handle, _, heq⟩
  · exact hstate
  · rw [heq] at he; cases he

theorem create_surface_ok_state (env : NativeEnv) (d : GpuDisplay)
    (parent : Option Nat) (w h : Nat) (id : Nat)
    (hok : (GpuDisplay.create_surface env d parent w h).result =
      CreateResult.ok id) :
    id = d.surface_next_id ∧ ∃ handle, env.surface_handle = some handle ∧
      (GpuDisplay.create_surface env d parent w h).state =
        { d with
            surfaces := insertKV d.surface_next_id
              { surface := handle, buffer_size := fbSize w h,
                buffer_index := 0,
                buffer_mem_size :=
                  round_up_to_page_size (fbSize w h * BUFFER_COUNT) }
              d.surfaces,
            surface_next_id := (d.surface_next_id + 1) % U32 } := by
  rcases create_surface_cases env d parent w h with ⟨hres, _⟩ | ⟨handle, hh, heq⟩
  · rcases hres with hcr | ⟨e, herr⟩
    · rw [hcr] at hok; cases hok
    · rw [herr] at hok; cases hok
  · have h2 : CreateResult.ok d.surface_next_id = CreateResult.ok id := by
      rw [heq] at hok; exact hok
    injection h2 with h3
    exact ⟨h3.symm, handle, hh, by rw [heq]⟩

/- Well-formedness is preserved by every operation. -/

theorem surfWF_create (handle fb : Nat) :
    SurfWF { surface := handle, buffer_size := fb, buffer_index := 0,
             buffer_mem_size := round_up_to_page_size (fb * BUFFER_COUNT) } := by
  constructor
  · show (0 : Nat) < BUFFER_COUNT
    decide
  · exact le_round_up_to_page_size _

theorem displayWF_create (env : NativeEnv) (d : GpuDisplay)
    (parent : Option Nat) (w h : Nat) (hwf : DisplayWF d) :
    DisplayWF (GpuDisplay.create_surface env d parent w h).state := by
  rcases create_surface_cases env d parent w h with ⟨_, hstate⟩ | ⟨handle, _, heq⟩
  · rw [hstate]; exact hwf
  · rw [heq]
    intro id s hs
    unfold GpuDisplay.get_surface at hs
    rcases lookupKV_insertKV_cases _ _ _ _ _ hs with ⟨_, rfl⟩ | ⟨_, hm⟩
    · exact surfWF_create handle (fbSize w h)
    · exact hwf id s hm

theorem displayWF_flip (d : GpuDisplay) (id : Nat) (hwf : DisplayWF d) :
    DisplayWF (d.flip id).1 := by
  unfold GpuDisplay.flip
  cases hg : d.get_surface id with
  | none => exact hwf
  | some s =>
    intro q t ht
    unfold GpuDisplay.get_surface at ht
    rcases lookupKV_insertKV_cases _ _ _ _ _ ht with ⟨_, rfl⟩ | ⟨_, hm⟩
    · obtain ⟨_, hsz⟩ := hwf id s hg
      constructor
      · show (s.buffer_index + 1) % BUFFER_COUNT < BUFFER_COUNT
        exact Nat.mod_lt _ (by decide)
      · exact hsz
    · exact hwf q t hm

theorem displayWF_release (d : GpuDisplay) (id : Nat) (hwf : DisplayWF d) :
    DisplayWF (d.release_surface id) := by
  intro q t ht
  unfold GpuDisplay.release_surface GpuDisplay.get_surface at ht
  exact hwf q t (lookupKV_removeKey_some _ _ _ _ ht)

theorem displayWF_import (env : NativeEnv) (d : GpuDisplay)
    (fd off st mo w h fo : Nat) (hwf : DisplayWF d) :
    DisplayWF (GpuDisplay.import_dmabuf env d fd off st mo w h fo).2 := by
  unfold GpuDisplay.import_dmabuf
  cases env.dmabuf_handle with
  | none => exact hwf
  | some handle =>
    intro q t ht
    exact hwf q t ht

theorem stepCmd_wf (c : Cmd) (d x : GpuDisplay) (hwf : DisplayWF d)
    (h : (stepCmd c d).outState = some x) : DisplayWF x := by
  cases c with
  | create_surface env parent w hh =>
    simp only [stepCmd] at h
    have hall := displayWF_create env d parent w hh hwf
    cases hr : (GpuDisplay.create_surface env d parent w hh).result with
    | crash => rw [hr] at h; cases h
    | error e =>
      rw [hr] at h
      injection h with h2
      rw [← h2]; exact hall
    | ok id2 =>
      rw [hr] at h
      injection h with h2
      rw [← h2]; exact hall
  | release_surface id =>
    injection h with h2
    rw [← h2]; exact displayWF_release d id hwf
  | import_dmabuf env fd off st mo w hh fo =>
    simp only [stepCmd, GpuDisplay.import_dmabuf] at h
    have hall := displayWF_import env d fd off st mo w hh fo hwf
    unfold GpuDisplay.import_dmabuf at hall
    cases he : env.dmabuf_handle with
    | none =>
      rw [he] at h hall
      injection h with h2
      rw [← h2]; exact hall
    | some handle =>
      rw [he] at h hall
      injection h with h2
      rw [← h2]; exact hall
  | release_import id =>
    injection h with h2
    rw [← h2]
    intro q t ht
    exact hwf q t ht
  | commit id =>
    injection h with h2
    rw [← h2, commit_fst]; exact hwf
  | flip id =>
    injection h with h2
    rw [← h2]; exact displayWF_flip d id hwf
  | flip_to sid iid =>
    injection h with h2
    rw [← h2, flip_to_fst]; exact hwf
  | set_position id x2 y2 =>
    injection h with h2
    rw [← h2, set_position_fst]; exact hwf
  | next_buffer_in_use env id =>
    injection h with h2
    rw [← h2]; exact hwf
  | close_requested env id =>
    injection h with h2
    rw [← h2]; exact hwf
  | framebuffer_memory id =>
    injection h with h2
    rw [← h2]; exact hwf
  | dispatch_events =>
    injection h with h2
    rw [← h2]; exact hwf

theorem runTrace_wf (cmds : List Cmd) :
    ∀ (d df : GpuDisplay) (sids iids : List Nat), DisplayWF d →
      runTrace cmds d = some (df, sids, iids) → DisplayWF df := by
  induction cmds with
  | nil =>
    intro d df sids iids hwf h
    simp only [runTrace, Option.some.injEq, Prod.mk.injEq] at h
    obtain ⟨rfl, -, -⟩ := h
    exact hwf
  | cons c rest ih =>
    intro d df sids iids hwf h
    simp only [runTrace] at h
    cases hst : stepCmd c d with
    | crashed => simp only [hst] at h; cases h
    | quiet d2 =>
      simp only [hst] at h
      exact ih d2 df sids iids (stepCmd_wf c d d2 hwf (by rw [hst]; rfl)) h
    | newSurface id2 d2 =>
      simp only [hst] at h
      cases hr : runTrace rest d2 with
      | none => rw [hr] at h; cases h
      | some trip =>
        obtain ⟨df2, s2, i2⟩ := trip
        rw [hr] at h
        simp only [Option.some.injEq, Prod.mk.injEq] at h
        obtain ⟨rfl, -, -⟩ := h
        exact ih d2 df2 s2 i2 (stepCmd_wf c d d2 hwf (by rw [hst]; rfl)) hr
    | newImport id2 d2 =>
      simp only [hst] at h
      cases hr : runTrace rest d2 with
      | none => rw [hr] at h; cases h
      | some trip =>
        obtain ⟨df2, s2, i2⟩ := trip
        rw [hr] at h
        simp only [Option.some.injEq, Prod.mk.injEq] at h
        obtain ⟨rfl, -, -⟩ := h
        exact ih d2 df2 s2 i2 (stepCmd_wf c d d2 hwf (by rw [hst]; rfl)) hr

/- Counter evolution of one step. -/

theorem flip_fst_counters (d : GpuDisplay) (id : Nat) :
    (d.flip id).1.surface_next_id = d.surface_next_id ∧
    (d.flip id).1.dmabuf_next_id = d.dmabuf_next_id := by
  unfold GpuDisplay.flip
  cases d.get_surface id <;> exact ⟨rfl, rfl⟩

theorem stepCmd_quiet_counters (c : Cmd) (d x : GpuDisplay)
    (h : stepCmd c d = StepOut.quiet x) :
    x.surface_next_id = d.surface_next_id ∧
    x.dmabuf_next_id = d.dmabuf_next_id := by
  cases c with
  | create_surface env parent w hh =>
    simp only [stepCmd] at h
    cases hr : (GpuDisplay.create_surface env d parent w hh).result with
    | crash => rw [hr] at h; cases h
    | error e =>
      rw [hr] at h
      injection h with h2
      rw [← h2, create_surface_error_state env d parent w hh e hr]
      exact ⟨rfl, rfl⟩
    | ok id2 => rw [hr] at h; cases h
  | release_surface id =>
    injection h with h2
    rw [← h2]; exact ⟨rfl, rfl⟩
  | import_dmabuf env fd off st mo w hh fo =>
    simp only [stepCmd, GpuDisplay.import_dmabuf] at h
    cases he : env.dmabuf_handle with
    | none =>
      rw [he] at h
      injection h with h2
      rw [← h2]; exact ⟨rfl, rfl⟩
    | some handle => rw [he] at h; cases h
  | release_import id =>
    injection h with h2
    rw [← h2]; exact ⟨rfl, rfl⟩
  | commit id =>
    injection h with h2
    rw [← h2, commit_fst]; exact ⟨rfl, rfl⟩
  | flip id =>
    injection h with h2
    rw [← h2]; exact flip_fst_counters d id
  | flip_to sid iid =>
    injection h with h2
    rw [← h2, flip_to_fst]; exact ⟨rfl, rfl⟩
  | set_position id x2 y2 =>
    injection h with h2
    rw [← h2, set_position_fst]; exact ⟨rfl, rfl⟩
  | next_buffer_in_use env id =>
    injection h with h2
    rw [← h2]; exact ⟨rfl, rfl⟩
  | close_requested env id =>
    injection h with h2
    rw [← h2]; exact ⟨rfl, rfl⟩
  | framebuffer_memory id =>
    injection h with h2
    rw [← h2]; exact ⟨rfl, rfl⟩
  | dispatch_events =>
    injection h with h2
    rw [← h2]; exact ⟨rfl, rfl⟩

theorem stepCmd_newSurface_spec (c : Cmd) (d x : GpuDisplay) (idr : Nat)
    (h : stepCmd c d = StepOut.newSurface idr x) :
    idr = d.surface_next_id ∧
    x.surface_next_id = (d.surface_next_id + 1) % U32 ∧
    x.dmabuf_next_id = d.dmabuf_next_id := by
  cases c with
  | create_surface env parent w hh =>
    simp only [stepCmd] at h
    cases hr : (GpuDisplay.create_surface env d parent w hh).result with
    | crash => rw [hr] at h; cases h
    | error e => rw [hr] at h; cases h
    | ok id2 =>
      rw [hr] at h
      injection h with h2 h3
      obtain ⟨hid, handle, hh2, hstate⟩ :=
        create_surface_ok_state env d parent w hh id2 hr
      refine ⟨?_, ?_, ?_⟩
      · rw [← h2]; exact hid
      · rw [← h3, hstate]
      · rw [← h3, hstate]
  | import_dmabuf env fd off st mo w hh fo =>
    simp only [stepCmd, GpuDisplay.import_dmabuf] at h
    cases he : env.dmabuf_handle with
    | none => rw [he] at h; cases h
    | some handle => rw [he] at h; cases h
  | release_surface id => cases h
  | release_import id => cases h
  | commit id => cases h
  | flip id => cases h
  | flip_to sid iid => cases h
  | set_position id x2 y2 => cases h
  | next_buffer_in_use env id => cases h
  | close_requested env id => cases h
  | framebuffer_memory id => cases h
  | dispatch_events => cases h

theorem stepCmd_newImport_spec (c : Cmd) (d x : GpuDisplay) (idr : Nat)
    (h : stepCmd c d = StepOut.newImport idr x) :
    idr = d.dmabuf_next_id ∧
    x.dmabuf_next_id = (d.dmabuf_next_id + 1) % U32 ∧
    x.surface_next_id = d.surface_next_id := by
  cases c with
  | create_surface env parent w hh =>
    simp only [stepCmd] at h
    cases hr : (GpuDisplay.create_surface env d parent w hh).result with
    | crash => rw [hr] at h; cases h
    | error e => rw [hr] at h; cases h
    | ok id2 => rw [hr] at h; cases h
  | import_dmabuf env fd off st mo w hh fo =>
    simp only [stepCmd, GpuDisplay.import_dmabuf] at h
    cases he : env.dmabuf_handle with
    | none => rw [he] at h; cases h
    | some handle =>
      rw [he] at h
      injection h with h2 h3
      refine ⟨h2.symm, ?_, ?_⟩
      · rw [← h3]
      · rw [← h3]
  | release_surface id => cases h
  | release_import id => cases h
  | commit id => cases h
  | flip id => cases h
  | flip_to sid iid => cases h
  | set_position id x2 y2 => cases h
  | next_buffer_in_use env id => cases h
  | close_requested env id => cases h
  | framebuffer_memory id => cases h
  | dispatch_events => cases h

/- Arithmetic of the wrapping id counter. -/

theorem shift_mod_add (c k : Nat) :
    ((c + 1) % U32 + k) % U32 = (c + (k + 1)) % U32 := by
  rw [Nat.mod_add_mod]
  congr 1
  omega

theorem cons_shift_range_map (c : Nat) (hc : c < U32) (n : Nat) :
    c :: List.map (fun i => ((c + 1) % U32 + i) % U32) (List.range n) =
    List.map (fun i => (c + i) % U32) (List.range (n + 1)) := by
  rw [List.range_succ_eq_map, List.map_cons, List.map_map]
  congr 1
  · show c = (c + 0) % U32
    rw [Nat.add_zero, Nat.mod_eq_of_lt hc]
  · apply List.map_congr_left
    intro i hi
    exact shift_mod_add c i

/- The ids returned along a run are the successive counter values. -/

theorem runTrace_ids (cmds : List Cmd) :
    ∀ (d df : GpuDisplay) (sids iids : List Nat),
      d.surface_next_id < U32 → d.dmabuf_next_id < U32 →
      runTrace cmds d = some (df, sids, iids) →
      sids = List.map (fun i => (d.surface_next_id + i) % U32)
        (List.range sids.length) ∧
      iids = List.map (fun i => (d.dmabuf_next_id + i) % U32)
        (List.range iids.length) ∧
      df.surface_next_id = (d.surface_next_id + sids.length) % U32 ∧
      df.dmabuf_next_id = (d.dmabuf_next_id + iids.length) % U32 := by
  induction cmds with
  | nil =>
    intro d df sids iids hs hi h
    simp only [runTrace, Option.some.injEq, Prod.mk.injEq] at h
    obtain ⟨rfl, rfl, rfl⟩ := h
    refine ⟨rfl, rfl, ?_, ?_⟩
    · rw [List.length_nil, Nat.add_zero, Nat.mod_eq_of_lt hs]
    · rw [List.length_nil, Nat.add_zero, Nat.mod_eq_of_lt hi]
  | cons c rest ih =>
    intro d df sids iids hs hi h
    simp only [runTrace] at h
    cases hst : stepCmd c d with
    | crashed => simp only [hst] at h; cases h
    | quiet d2 =>
      simp only [hst] at h
      obtain ⟨hq1, hq2⟩ := stepCmd_quiet_counters c d d2 hst
      have ihh := ih d2 df sids iids (by rw [hq1]; exact hs)
        (by rw [hq2]; exact hi) h
      simp only [hq1, hq2] at ihh
      exact ihh
    | newSurface id2 d2 =>
      simp only [hst] at h
      cases hr : runTrace rest d2 with
      | none => rw [hr] at h; cases h
      | some trip =>
        obtain ⟨df2, s2, i2⟩ := trip
        rw [hr] at h
        simp only [Option.some.injEq, Prod.mk.injEq] at h
        obtain ⟨rfl, hsids, rfl⟩ := h
        subst hsids
        obtain ⟨hid, hns, hnd⟩ := stepCmd_newSurface_spec c d d2 id2 hst
        have hs2 : d2.surface_next_id < U32 := by
          rw [hns]; exact Nat.mod_lt _ (by decide)
        have hi2 : d2.dmabuf_next_id < U32 := by rw [hnd]; exact hi
        obtain ⟨ha, hb, hc2, hd2⟩ := ih d2 df2 s2 i2 hs2 hi2 hr
        simp only [hns, hnd] at ha hb hc2 hd2
        refine ⟨?_, hb, ?_, hd2⟩
        · rw [List.length_cons, hid,
            ← cons_shift_range_map d.surface_next_id hs s2.length, ← ha]
        · rw [List.length_cons, hc2, shift_mod_add]
    | newImport id2 d2 =>
      simp only [hst] at h
      cases hr : runTrace rest d2 with
      | none => rw [hr] at h; cases h
      | some trip =>
        obtain ⟨df2, s2, i2⟩ := trip
        rw [hr] at h
        simp only [Option.some.injEq, Prod.mk.injEq] at h
        obtain ⟨rfl, rfl, hiids⟩ := h
        subst hiids
        obtain ⟨hid, hnd, hns⟩ := stepCmd_newImport_spec c d d2 id2 hst
        have hi2 : d2.dmabuf_next_id < U32 := by
          rw [hnd]; exact Nat.mod_lt _ (by decide)
        have hs2 : d2.surface_next_id < U32 := by rw [hns]; exact hs
        obtain ⟨ha, hb, hc2, hd2⟩ := ih d2 df2 s2 i2 hs2 hi2 hr
        simp only [hns, hnd] at ha hb hc2 hd2
        refine ⟨ha, ?_, hc2, ?_⟩
        · rw [List.length_cons, hid,
            ← cons_shift_range_map d.dmabuf_next_id hi i2.length, ← hb]
        · rw [List.length_cons, hd2, shift_mod_add]

/- The framebuffer view on a well-formed state. -/

theorem framebuffer_memory_of_wf (d : GpuDisplay) (id : Nat)
    (s : GpuDisplaySurface) (hwf : DisplayWF d) (hs : d.get_surface id = some s) :
    d.framebuffer_memory id =
      some ((s.buffer_index + 1) % BUFFER_COUNT * s.buffer_size, s.buffer_size) := by
  obtain ⟨hidx, hsz⟩ := hwf id s hs
  have hbc : BUFFER_COUNT = 2 := rfl
  have hmod : (s.buffer_index + 1) % BUFFER_COUNT < BUFFER_COUNT :=
    Nat.mod_lt _ (by rw [hbc]; omega)
  have h1 : (s.buffer_index + 1) % BUFFER_COUNT ≤ 1 := by
    rw [hbc] at hmod ⊢
    omega
  have hle : (s.buffer_index + 1) % BUFFER_COUNT * s.buffer_size + s.buffer_size ≤
      s.buffer_mem_size := by
    have h2 : (s.buffer_index + 1) % BUFFER_COUNT * s.buffer_size ≤
        1 * s.buffer_size := Nat.mul_le_mul_right _ h1
    rw [Nat.one_mul] at h2
    calc (s.buffer_index + 1) % BUFFER_COUNT * s.buffer_size + s.buffer_size
        ≤ s.buffer_size + s.buffer_size := Nat.add_le_add_right h2 _
      _ = s.buffer_size * BUFFER_COUNT := by rw [hbc]; ring
      _ ≤ s.buffer_mem_size := hsz
  simp only [GpuDisplay.framebuffer_memory, hs]
  unfold getSlice
  rw [if_pos hle]

/-- C1: for every connection obtained from new and every sequence of
operations, every registered surface satisfies: framebuffer_memory returns the
view at byte offset ((buffer_index + 1) % BUFFER_COUNT) * buffer_size with
length buffer_size (the buffer not last presented); commit, flip_to and
set_position return the state unchanged, next_buffer_in_use queries the native
layer at the same candidate index without touching the state, and flip is the
only operation that moves buffer_index, setting it to the candidate. -/
theorem framebuffer_always_next_buffer
    (env0 : NewEnv) (path : List Nat) (d0 : GpuDisplay)
    (h0 : GpuDisplay.new env0 path = Except.ok d0)
    (cmds : List Cmd) (d : GpuDisplay) (sids iids : List Nat)
    (hrun : runTrace cmds d0 = some (d, sids, iids))
    (id : Nat) (s : GpuDisplaySurface)
    (hs : d.get_surface id = some s) :
    d.framebuffer_memory id =
      some ((s.buffer_index + 1) % BUFFER_COUNT * s.buffer_size, s.buffer_size)
    ∧ (d.commit id).1 = d
    ∧ (∀ env, GpuDisplay.next_buffer_in_use env d id =
        env.buffer_in_use ((s.buffer_index + 1) % BUFFER_COUNT))
    ∧ (∀ iid, (d.flip_to id iid).1 = d)
    ∧ (∀ x y, (d.set_position id x y).1 = d)
    ∧ (d.flip id).1.get_surface id =
        some ({ s with buffer_index := (s.buffer_index + 1) % BUFFER_COUNT }) := by
  have hwf : DisplayWF d :=
    runTrace_wf cmds d0 d sids iids (displayWF_of_new env0 path d0 h0) hrun
  refine ⟨framebuffer_memory_of_wf d id s hwf hs, commit_fst d id, ?_,
    fun iid => flip_to_fst d id iid, fun x y => set_position_fst d id x y, ?_⟩
  · intro env
    simp [GpuDisplay.next_buffer_in_use, hs]
  · simp only [GpuDisplay.flip, hs]
    simp only [GpuDisplay.get_surface]
    exact lookupKV_insertKV_self id _ _

/-- Witness for C1: a fresh connection, one 64x64 surface; framebuffer_memory
returns the slice at offset 16384 (buffer 1) of length 16384, and flip moves
the index to 1. -/
theorem framebuffer_always_next_buffer_witness :
    GpuDisplay.framebuffer_memory display1 0 = some (16384, 16384) ∧
    (GpuDisplay.flip display1 0).1.get_surface 0 =
      some { surface := 2, buffer_size := 16384, buffer_index := 1,
             buffer_mem_size := 32768 } := by
  have h := framebuffer_always_next_buffer goodNewEnv [] freshDisplay rfl
    [Cmd.create_surface goodEnv none 64 64] display1 [0] [] rfl 0 surf64 rfl
  exact ⟨h.1, h.2.2.2.2.2⟩

/- Overflow-free geometry. -/

theorem fbSize_no_overflow (w h : Nat) (hlt : w * BYTES_PER_PIXEL * h < U32) :
    fbSize w h = w * BYTES_PER_PIXEL * h := by
  unfold fbSize
  rcases Nat.eq_zero_or_pos h with rfl | hp
  · simp
  · have h1 : w * BYTES_PER_PIXEL < U32 :=
      Nat.lt_of_le_of_lt (Nat.le_mul_of_pos_right _ hp) hlt
    rw [Nat.mod_eq_of_lt h1, Nat.mod_eq_of_lt hlt]

/-- C2: every successful create_surface(parent, width, height) stores a
surface whose mapped shared-memory region has size exactly
round_up_to_page_size(fb_size * BUFFER_COUNT) with BUFFER_COUNT = 2, where
fb_size = width * 4 * height is the stored per-buffer size (computed in u32
arithmetic, as in the source); that region size is at least fb_size * 2 and is
page-aligned, for any width and height; and whenever width * 4 * height does
not overflow u32, fb_size is exactly the mathematical width * 4 * height. -/
theorem create_surface_shm_sizing (env : NativeEnv) (d : GpuDisplay)
    (parent : Option Nat) (w h id : Nat)
    (hok : (GpuDisplay.create_surface env d parent w h).result =
      CreateResult.ok id) :
    Option.map (fun s => s.buffer_mem_size)
        (GpuDisplay.get_surface
          (GpuDisplay.create_surface env d parent w h).state id)
      = some (round_up_to_page_size (fbSize w h * BUFFER_COUNT)) ∧
    Option.map (fun s => s.buffer_size)
        (GpuDisplay.get_surface
          (GpuDisplay.create_surface env d parent w h).state id)
      = some (fbSize w h) ∧
    fbSize w h * BUFFER_COUNT ≤
      round_up_to_page_size (fbSize w h * BUFFER_COUNT) ∧
    pageSize ∣ round_up_to_page_size (fbSize w h * BUFFER_COUNT) ∧
    (w * BYTES_PER_PIXEL * h < U32 → fbSize w h = w * BYTES_PER_PIXEL * h) := by
  obtain ⟨hid, handle, hh, hstate⟩ := create_surface_ok_state env d parent w h id hok
  subst hid
  rw [hstate]
  refine ⟨?_, ?_, le_round_up_to_page_size _, pageSize_dvd_round_up _,
    fbSize_no_overflow w h⟩
  · simp [GpuDisplay.get_surface, lookupKV_insertKV_self]
  · simp [GpuDisplay.get_surface, lookupKV_insertKV_self]

/-- Witness for C2: a 64x64 surface on a fresh connection: region size 32768 =
round up of 2 * 16384, per-buffer size 16384. -/
theorem create_surface_shm_sizing_witness :
    Option.map (fun s => s.buffer_mem_size)
        (GpuDisplay.get_surface
          (GpuDisplay.create_surface goodEnv freshDisplay none 64 64).state 0)
      = some 32768 ∧
    Option.map (fun s => s.buffer_size)
        (GpuDisplay.get_surface
          (GpuDisplay.create_surface goodEnv freshDisplay none 64 64).state 0)
      = some 16384 := by
  have h := create_surface_shm_sizing goodEnv freshDisplay none 64 64 0 rfl
  exact ⟨h.1, h.2.1⟩

/-- C4: create_surface with a parent id that is not registered returns the
InvalidSurfaceId error, creates no shared-memory region (the shm_created flag
is false), and leaves the connection state - both handle tables and both id
counters - unchanged. -/
theorem create_surface_unknown_parent (env : NativeEnv) (d : GpuDisplay)
    (pid w h : Nat) (hp : d.get_surface pid = none) :
    GpuDisplay.create_surface env d (some pid) w h =
      ⟨CreateResult.error GpuDisplayError.InvalidSurfaceId, d, false⟩ := by
  simp only [GpuDisplay.create_surface, hp]

/-- Witness for C4: parent id 999 on a fresh connection. -/
theorem create_surface_unknown_parent_witness :
    GpuDisplay.create_surface goodEnv freshDisplay (some 999) 64 64 =
      ⟨CreateResult.error GpuDisplayError.InvalidSurfaceId, freshDisplay,
       false⟩ :=
  create_surface_unknown_parent goodEnv freshDisplay 999 64 64 rfl

/-- C5: every per-surface or per-import operation given an unregistered id
degrades to a no-op or neutral value and never returns an error:
next_buffer_in_use and close_requested return false, framebuffer_memory
returns none, commit, set_position, flip and flip_to leave the connection
state unchanged and skip the native call, and releasing an unknown (or
already released) surface or import id is an idempotent no-op. -/
theorem unknown_id_operations_noop (env : NativeEnv) (d : GpuDisplay)
    (sid iid x y : Nat) (hs : d.get_surface sid = none)
    (hi : lookupKV iid d.dmabufs = none) :
    GpuDisplay.next_buffer_in_use env d sid = false ∧
    GpuDisplay.close_requested env d sid = false ∧
    d.framebuffer_memory sid = none ∧
    d.commit sid = (d, none) ∧
    d.set_position sid x y = (d, none) ∧
    d.flip sid = (d, none) ∧
    d.flip_to sid iid = (d, none) ∧
    d.release_surface sid = d ∧
    d.release_import iid = d := by
  refine ⟨?_, ?_, ?_, ?_, ?_, ?_, ?_, ?_, ?_⟩
  · simp [GpuDisplay.next_buffer_in_use, hs]
  · simp [GpuDisplay.close_requested, hs]
  · simp [GpuDisplay.framebuffer_memory, hs]
  · simp [GpuDisplay.commit, hs]
  · simp [GpuDisplay.set_position, hs]
  · simp [GpuDisplay.flip, hs]
  · simp [GpuDisplay.flip_to, hs]
  · unfold GpuDisplay.release_surface
    unfold GpuDisplay.get_surface at hs
    rw [removeKey_of_lookup_none sid d.surfaces hs]
  · unfold GpuDisplay.release_import
    rw [removeKey_of_lookup_none iid d.dmabufs hi]

/-- Witness for C5: unknown ids on a fresh connection. -/
theorem unknown_id_operations_noop_witness :
    GpuDisplay.next_buffer_in_use goodEnv freshDisplay 7 = false ∧
    GpuDisplay.close_requested goodEnv freshDisplay 7 = false ∧
    GpuDisplay.framebuffer_memory freshDisplay 7 = none ∧
    GpuDisplay.commit freshDisplay 7 = (freshDisplay, none) ∧
    GpuDisplay.set_position freshDisplay 7 3 4 = (freshDisplay, none) ∧
    GpuDisplay.flip freshDisplay 7 = (freshDisplay, none) ∧
    GpuDisplay.flip_to freshDisplay 7 9 = (freshDisplay, none) ∧
    GpuDisplay.release_surface freshDisplay 7 = freshDisplay ∧
    GpuDisplay.release_import freshDisplay 9 = freshDisplay :=
  unknown_id_operations_noop goodEnv freshDisplay 7 9 3 4 rfl rfl

/-- C6: flip_to never changes the surface's buffer index (the connection state
is returned unchanged in every case), and when either the surface id or
the buffer-import id is unknown it silently skips the native present rather
than returning an error (its type has no error channel). -/
theorem flip_to_preserves_buffer_index (d : GpuDisplay) (sid iid : Nat) :
    (d.flip_to sid iid).1 = d ∧
    ((d.get_surface sid = none ∨ lookupKV iid d.dmabufs = none) →
      (d.flip_to sid iid).2 = none) := by
  refine ⟨flip_to_fst d sid iid, ?_⟩
  intro hcase
  rcases hcase with hs | hi
  · simp [GpuDisplay.flip_to, hs]
  · cases hg : d.get_surface sid with
    | none => simp [GpuDisplay.flip_to, hg]
    | some s => simp [GpuDisplay.flip_to, hg, hi]

/-- Witness for C6: unknown surface id 0 on a fresh connection. -/
theorem flip_to_preserves_buffer_index_witness :
    (GpuDisplay.flip_to freshDisplay 0 0).1 = freshDisplay ∧
    (GpuDisplay.flip_to freshDisplay 0 0).2 = none := by
  have h := flip_to_preserves_buffer_index freshDisplay 0 0
  exact ⟨h.1, h.2 (Or.inl rfl)⟩

/-- C9: every create_surface call that returns an error (CreateShm, SetSize,
CreateSurface - and InvalidSurfaceId as well) leaves the connection state
exactly as it was: the surface table gains no entry, the surface-id counter is
not incremented, and the shared-memory region and mapping created during the
failed call are not retained by the connection (the state holds all retained
regions). -/
theorem create_surface_error_leaves_state (env : NativeEnv) (d : GpuDisplay)
    (parent : Option Nat) (w h : Nat) (e : GpuDisplayError)
    (he : (GpuDisplay.create_surface env d parent w h).result =
      CreateResult.error e) :
    (GpuDisplay.create_surface env d parent w h).state = d :=
  create_surface_error_state env d parent w h e he

/-- Witness for C9: a failing shared-memory creation leaves a fresh connection
unchanged. -/
theorem create_surface_error_leaves_state_witness :
    (GpuDisplay.create_surface shmFailEnv freshDisplay none 64 64).state =
      freshDisplay :=
  create_surface_error_leaves_state shmFailEnv freshDisplay none 64 64
    (GpuDisplayError.CreateShm 12) rfl

/- Crash characterization of create_surface. -/

theorem bool_true_of_not_false (b : Bool) (h : ¬ b = false) : b = true := by
  cases b
  · exact absurd rfl h
  · rfl

theorem create_surface_resolved_crash_iff (env : NativeEnv) (d : GpuDisplay)
    (pp w h : Nat) :
    (GpuDisplay.create_surface_resolved env d pp w h).result =
        CreateResult.crash ↔
      (env.shm_ok = true ∧ env.set_size_ok = true ∧ env.map_ok = false) := by
  unfold GpuDisplay.create_surface_resolved
  by_cases h1 : env.shm_ok = false
  · rw [if_pos h1]
    simp [h1]
  · rw [if_neg h1]
    have h1t := bool_true_of_not_false _ h1
    by_cases h2 : env.set_size_ok = false
    · rw [if_pos h2]
      simp [h2]
    · rw [if_neg h2]
      have h2t := bool_true_of_not_false _ h2
      by_cases h3 : env.map_ok = false
      · rw [if_pos h3]
        simp [h1t, h2t, h3]
      · rw [if_neg h3]
        have h3t := bool_true_of_not_false _ h3
        cases hh : env.surface_handle with
        | none => simp [h3t]
        | some handle => simp [h3t]

/-- C10: create_surface crashes the process (the unwrap on
MemoryMapping::from_fd, lib.rs line 242) exactly when the parent resolves,
shared-memory creation and sizing succeed, and the mapping fails; every other
failing step of create_surface is surfaced as a tagged GpuDisplayError
result, so the mapping failure is the only non-error-result failure. -/
theorem create_surface_map_failure_crashes (env : NativeEnv) (d : GpuDisplay)
    (parent : Option Nat) (w h : Nat) :
    (GpuDisplay.create_surface env d parent w h).result = CreateResult.crash ↔
      (parentResolves d parent = true ∧ env.shm_ok = true ∧
       env.set_size_ok = true ∧ env.map_ok = false) := by
  cases parent with
  | none =>
    simp only [GpuDisplay.create_surface, parentResolves]
    rw [create_surface_resolved_crash_iff]
    simp
  | some pid =>
    simp only [GpuDisplay.create_surface, parentResolves]
    cases hp : d.get_surface pid with
    | none => simp
    | some p =>
      rw [create_surface_resolved_crash_iff]
      simp

/-- Witness for C10: a failing mapping on a fresh connection crashes. -/
theorem create_surface_map_failure_crashes_witness :
    (GpuDisplay.create_surface mapFailEnv freshDisplay none 64 64).result =
      CreateResult.crash :=
  (create_surface_map_failure_crashes mapFailEnv freshDisplay none 64 64).mpr
    ⟨rfl, rfl, rfl, rfl⟩

/- Id sequences below the wrap bound. -/

theorem map_mod_id_of_le (n : Nat) (hn : n ≤ U32) :
    List.map (fun i => (0 + i) % U32) (List.range n) = List.range n := by
  induction n with
  | zero => rfl
  | succ k ih =>
    rw [List.range_succ, List.map_append, ih (Nat.le_of_succ_le hn)]
    congr 1
    simp only [List.map_cons, List.map_nil]
    rw [Nat.zero_add,
      Nat.mod_eq_of_lt (Nat.lt_of_lt_of_le (Nat.lt_succ_self k) hn)]

/-- C3 (amended): from a connection returned by new, as long as at most 2^32
surface ids and at most 2^32 import ids are issued, the surface ids returned
by successful create_surface calls are strictly increasing and pairwise
distinct regardless of interleaved release_surface calls (or any other
operations), and likewise the import ids returned by import_dmabuf with
interleaved release_import calls; the u32 counters wrap at 2^32, so the bound
is necessary. -/
theorem ids_strictly_increasing (env0 : NewEnv) (path : List Nat)
    (d0 df : GpuDisplay) (h0 : GpuDisplay.new env0 path = Except.ok d0)
    (cmds : List Cmd) (sids iids : List Nat)
    (hrun : runTrace cmds d0 = some (df, sids, iids))
    (hns : sids.length ≤ U32) (hni : iids.length ≤ U32) :
    sids.Pairwise (· < ·) ∧ sids.Nodup ∧
    iids.Pairwise (· < ·) ∧ iids.Nodup := by
  obtain ⟨-, hcs, -, hcd⟩ := new_ok_state env0 path d0 h0
  have hlt : d0.surface_next_id < U32 := by rw [hcs]; decide
  have hlt2 : d0.dmabuf_next_id < U32 := by rw [hcd]; decide
  obtain ⟨ha, hb, -, -⟩ := runTrace_ids cmds d0 df sids iids hlt hlt2 hrun
  simp only [hcs] at ha
  simp only [hcd] at hb
  have ha2 : sids = List.range sids.length :=
    ha.trans (map_mod_id_of_le sids.length hns)
  have hb2 : iids = List.range iids.length :=
    hb.trans (map_mod_id_of_le iids.length hni)
  refine ⟨?_, ?_, ?_, ?_⟩
  · rw [ha2]; exact List.pairwise_lt_range _
  · rw [ha2]; exact List.nodup_range _
  · rw [hb2]; exact List.pairwise_lt_range _
  · rw [hb2]; exact List.nodup_range _

/-- Witness for C3 (amended): two creations on a fresh connection return the
ids 0 and 1, strictly increasing and distinct. -/
theorem ids_strictly_increasing_witness :
    ([0, 1] : List Nat).Pairwise (· < ·) ∧ ([0, 1] : List Nat).Nodup := by
  have h := ids_strictly_increasing goodNewEnv [] freshDisplay display2 rfl
    [Cmd.create_surface goodEnv none 64 64, Cmd.create_surface goodEnv none 64 64]
    [0, 1] [] rfl (by decide) (by decide)
  exact ⟨h.1, h.2.1⟩

/- Each 1x1 creation under goodEnv succeeds and returns the current counter. -/

theorem wrapCreate_result (d : GpuDisplay) :
    GpuDisplay.create_surface goodEnv d none 1 1 =
      ⟨CreateResult.ok d.surface_next_id,
       { d with
           surfaces := insertKV d.surface_next_id
             { surface := 2, buffer_size := 4, buffer_index := 0,
               buffer_mem_size := 4096 } d.surfaces,
           surface_next_id := (d.surface_next_id + 1) % U32 },
       true⟩ := rfl

theorem stepCmd_wrapCreate (d : GpuDisplay) :
    stepCmd wrapCreateCmd d =
      StepOut.newSurface d.surface_next_id
        (GpuDisplay.create_surface goodEnv d none 1 1).state := rfl

theorem runTrace_replicate_create (n : Nat) : ∀ d : GpuDisplay,
    ∃ df sids, runTrace (List.replicate n wrapCreateCmd) d =
      some (df, sids, []) ∧ sids.length = n := by
  induction n with
  | zero => intro d; exact ⟨d, [], rfl, rfl⟩
  | succ k ih =>
    intro d
    obtain ⟨df, sids, hrun, hlen⟩ :=
      ih (GpuDisplay.create_surface goodEnv d none 1 1).state
    refine ⟨df, d.surface_next_id :: sids, ?_, by simp [hlen]⟩
    rw [List.replicate_succ]
    simp only [runTrace, stepCmd_wrapCreate]
    rw [hrun]

/-- C3 counterexample: after 2^32 + 1 consecutive successful create_surface
calls from a fresh connection, the u32 surface-id counter has wrapped and the
last returned id equals the first (both 0): the returned ids are neither
pairwise distinct nor strictly increasing, refuting the claim for unbounded N
(in release builds, where the counter increment wraps). -/
theorem surface_id_counter_wraps :
    ∃ df sids, runTrace (List.replicate (U32 + 1) wrapCreateCmd) freshDisplay =
        some (df, sids, ([] : List Nat)) ∧
      sids.length = U32 + 1 ∧ ¬ sids.Nodup ∧ ¬ sids.Pairwise (· < ·) := by
  obtain ⟨df, sids, hrun, hlen⟩ :=
    runTrace_replicate_create (U32 + 1) freshDisplay
  obtain ⟨ha, -, -, -⟩ := runTrace_ids (List.replicate (U32 + 1) wrapCreateCmd)
    freshDisplay df sids [] (by decide) (by decide) hrun
  have ha2 : sids = List.map (fun i => (0 + i) % U32) (List.range (U32 + 1)) := by
    rw [← hlen]
    exact ha
  have hnodup : ¬ sids.Nodup := by
    intro hnd
    rw [ha2] at hnd
    have hinj := (List.nodup_map_iff_inj_on (List.nodup_range _)).mp hnd 0
      (List.mem_range.mpr (by omega)) U32 (List.mem_range.mpr (by omega))
    have hval : (0 + 0) % U32 = (0 + U32) % U32 := by
      rw [Nat.zero_add, Nat.zero_add, Nat.zero_mod, Nat.mod_self]
    exact absurd (hinj hval) (by decide)
  refine ⟨df, sids, hrun, hlen, hnodup, ?_⟩
  intro hp
  exact hnodup (hp.imp fun hlt => Nat.ne_of_lt hlt)

/-- C7 counterexample: the single byte 0xFF is representable as a
null-terminated byte string with no interior null bytes, yet GpuDisplay::new
rejects it with InvalidPath (the conversion goes through str, which also
requires UTF-8 validity), refuting the claim's "exactly when". -/
theorem invalid_path_not_only_interior_nul :
    GpuDisplay.new goodNewEnv [255] =
      Except.error GpuDisplayError.InvalidPath ∧
    List.contains [255] 0 = false := ⟨rfl, rfl⟩

/-- C7 (amended): provided the native context allocation succeeded, new
returns InvalidPath exactly when the path bytes are not valid UTF-8 or
contain an interior null byte; every path that is valid UTF-8 with no
interior null proceeds to the native handshake (returning success or
Connect, never InvalidPath). -/
theorem new_invalid_path_iff (env : NewEnv) (path : List Nat)
    (hctx : env.ctx_new.isSome = true) :
    (GpuDisplay.new env path = Except.error GpuDisplayError.InvalidPath) ↔
      (utf8Valid path = false ∨ path.contains 0 = true) := by
  cases hc : env.ctx_new with
  | none => rw [hc] at hctx; cases hctx
  | some c =>
    simp only [GpuDisplay.new, hc]
    unfold pathToCString
    cases hu : utf8Valid path with
    | false => simp [hu]
    | true =>
      cases hz : path.contains 0 with
      | true => simp [hu, hz]
      | false =>
        cases hs : env.setup_ok with
        | true => simp [hu, hz, hs]
        | false => simp [hu, hz, hs]

/-- Witness for C7 (amended): a path with an interior null byte is rejected
with InvalidPath. -/
theorem new_invalid_path_iff_witness :
    GpuDisplay.new goodNewEnv [65, 0, 66] =
      Except.error GpuDisplayError.InvalidPath :=
  (new_invalid_path_iff goodNewEnv [65, 0, 66] rfl).mpr (Or.inr rfl)

/-- C8: tearing a GpuDisplay down destroys its native context exactly once
even though destruction is triggered twice (the explicit Drop for GpuDisplay
and then the Drop of its DwlContext field both call the same native destroy,
which consumes the handle by nulling the pointer); a context that was never
successfully created (null handle) is tolerated and not re-destroyed, and the
guard's drop is idempotent. -/
theorem context_destroy_exactly_once (c : ContextSlot) :
    (c.ptr.isSome = true →
      gpuDisplayTeardown c = { ptr := none, destroyed := c.destroyed + 1 }) ∧
    (c.ptr = none → dwlContextDrop c = c) ∧
    dwlContextDrop (dwlContextDrop c) = dwlContextDrop c := by
  refine ⟨?_, ?_, ?_⟩
  · intro h
    cases hp : c.ptr with
    | none => rw [hp] at h; cases h
    | some p =>
      simp [gpuDisplayTeardown, gpuDisplayDrop, dwlContextDrop,
        dwl_context_destroy, hp]
  · intro h
    simp [dwlContextDrop, h]
  · cases hp : c.ptr with
    | none => simp [dwlContextDrop, dwl_context_destroy, hp]
    | some p =>
      simp [dwlContextDrop, dwl_context_destroy, hp]

/-- Witness for C8: a live context with handle 5 is destroyed exactly once by
the full teardown; a null context is never destroyed. -/
theorem context_destroy_exactly_once_witness :
    gpuDisplayTeardown { ptr := some 5, destroyed := 0 } =
      { ptr := none, destroyed := 1 } ∧
    dwlContextDrop { ptr := none, destroyed := 0 } =
      { ptr := none, destroyed := 0 } :=
  ⟨(context_destroy_exactly_once { ptr := some 5, destroyed := 0 }).1 rfl,
   (context_destroy_exactly_once { ptr := none, destroyed := 0 }).2.1 rfl⟩
